import Mathlib

/-!
Shallow embedding of `src/diffusers/pipelines/stable_audio/pipeline_stable_audio.py`
(class `StableAudioPipeline`).

Tensors are modelled as nested lists of rationals: a 3-d tensor `[B, S, H]` is a
list of `B` rows, each a list of `S` vectors of `H` rationals; a 2-d tensor is a
list of rows of rationals.  Machine floats are modelled by `ℚ` (the claims under
study are about batching, ordering, slicing and control flow, not float rounding).

External collaborators (tokenizer, text encoder, projection model, transformer,
vae, scheduler, random source) are opaque parameters collected in `Model`, per
the spec section 1 which excludes them from the core.  Every collaborator
invocation is recorded as an event so that fail-fast and call-count claims can
be stated about the trace.

Python exceptions are modelled by `Err`; a raised exception aborts the rest of
the computation, keeping the events emitted so far.
-/

/-- 1-d tensor: a vector of rationals. -/
abbrev T1 := List ℚ

/-- 2-d tensor `[B, S]`. -/
abbrev T2 := List T1

/-- 3-d tensor `[B, S, H]`. -/
abbrev T3 := List T2

/-- Python exception kinds raised by the pipeline code. -/
inductive Err where
  | typeError
  | valueError
  | unboundLocal
  | attributeError
  | shapeError
  deriving DecidableEq, Repr

/-- Collaborator-invocation events, with the arguments of the call.
`proj` records the `attention_mask` argument fed to the projection model,
which claim C5 is about. -/
inductive Ev where
  | tok (prompts : List String)
  | tokLong (prompts : List String)
  | txtEnc (ids : T2) (mask : T2)
  | proj (hidden : T3) (mask : T2) (starts ends : List ℚ)
  | vaeEnc (w : T3)
  | vaeDec (l : T3)
  | trans (input : T3) (t : ℚ)
  | sched (noise : T3) (t : ℚ) (latents : T3)
  deriving DecidableEq, Repr

/-- Equality of `Except` values is decidable when both components are. -/
def exceptDecEq {ε α : Type} [DecidableEq ε] [DecidableEq α] : DecidableEq (Except ε α)
  | .error e1, .error e2 =>
    if h : e1 = e2 then isTrue (by rw [h]) else isFalse (by intro hc; cases hc; exact h rfl)
  | .error _, .ok _ => isFalse (fun hc => Except.noConfusion hc)
  | .ok _, .error _ => isFalse (fun hc => Except.noConfusion hc)
  | .ok a, .ok b =>
    if h : a = b then isTrue (by rw [h]) else isFalse (by intro hc; cases hc; exact h rfl)

instance {ε α : Type} [DecidableEq ε] [DecidableEq α] : DecidableEq (Except ε α) := exceptDecEq

/-- Writer (event trace) + exception monad used by the embedding. -/
abbrev EvM (α : Type) : Type := List Ev × Except Err α

/-- Sequencing in `EvM`: an exception aborts, otherwise traces concatenate. -/
def EvM.bind {α β : Type} (x : EvM α) (f : α → EvM β) : EvM β :=
  match x.2 with
  | .error e => (x.1, .error e)
  | .ok a => (x.1 ++ (f a).1, (f a).2)

instance : Monad EvM where
  pure a := ([], .ok a)
  bind := EvM.bind

/-- Record one collaborator invocation. -/
def emit (e : Ev) : EvM Unit := ([e], .ok ())

/-- Raise a Python exception. -/
def throwE {α : Type} (e : Err) : EvM α := ([], .error e)

/-- Output of the projection collaborator (`StableAudioProjectionModel`). -/
structure ProjOut where
  text_hidden_states : T3
  attention_mask : T2
  seconds_start_hidden_states : T3
  seconds_end_hidden_states : T3

/-- The external collaborators and static configuration of the pipeline.
The rotary embedding builder `get_1d_rotary_pos_embed` lives outside `src/`;
it is abstracted by passing its two arguments `(dim, length)` to the
transformer collaborator unchanged. -/
structure Model where
  tokenize : List String → T2 × T2
  tokenizeLongest : List String → T2
  textEncode : T2 → T2 → T3
  project : T3 → T2 → List ℚ → List ℚ → ProjOut
  transformer : T3 → ℚ → T3 → T3 → ℕ × ℕ → T3
  vaeEncode : T3 → T3
  vaeDecode : T3 → T3
  hop_length : ℕ
  sampling_rate : ℕ
  sample_size : ℕ
  in_channels : ℕ
  schedule : ℕ → List ℚ
  scaleModelInput : T3 → ℚ → T3
  schedStep : T3 → ℚ → T3 → T3
  initNoiseSigma : ℚ
  schedOrder : ℕ
  randn : ℕ × ℕ × ℕ → T3
  attention_head_dim : ℕ

/-- The `prompt` / `negative_prompt` arguments: `None`, a single string, or a
list of strings. -/
inductive PromptArg where
  | null
  | str (s : String)
  | list (l : List String)
  deriving DecidableEq, Repr

/-- The `generator` argument: `None`, a single generator, or a list of
generators of a given length (only the length is observable to the core). -/
inductive GenArg where
  | null
  | single
  | genList (n : ℕ)
  deriving DecidableEq, Repr

/-- Sequence length of the leading batch row (`t.shape[1]`). -/
def seqLen (t : T3) : ℕ := (t.headD []).length

/-- Innermost length of the leading entry (`t.shape[2]`). -/
def dim2 (t : T3) : ℕ := ((t.headD []).headD []).length

/-- Shape of a (rectangular) 3-d tensor. -/
def shape3 (t : T3) : ℕ × ℕ × ℕ := (t.length, seqLen t, dim2 t)

/-- Shape of a (rectangular) 2-d tensor. -/
def shape2 (t : T2) : ℕ × ℕ := (t.length, (t.headD []).length)

/-- `torch.ones((b, s))`. -/
def ones2 (b s : ℕ) : T2 := List.replicate b (List.replicate s (1 : ℚ))

/-- `torch.zeros_like` for a 3-d tensor. -/
def zerosLike (t : T3) : T3 := t.map (fun r => r.map (fun v => v.map (fun _ => (0 : ℚ))))

/-- `value * mask.unsqueeze(-1)`: scale every hidden vector by the mask scalar
of its (batch, seq) position. -/
def maskMul (t : T3) (mask : T2) : T3 :=
  List.zipWith (fun row mrow => List.zipWith (fun v m => v.map (fun x => x * m)) row mrow) t mask

/-- `torch.where(mask.to(bool).unsqueeze(2), value, 0.)`: keep the hidden vector
where the mask is nonzero, zero it elsewhere. -/
def torchWhere (mask : T2) (t : T3) : T3 :=
  List.zipWith
    (fun mrow row => List.zipWith (fun m v => if m ≠ 0 then v else v.map (fun _ => (0 : ℚ))) mrow row)
    mask t

/-- `torch.cat(_, dim=1)` for 2-d tensors: appends columns; `torch.cat` demands
equal batch sizes (it never broadcasts), else it raises. -/
def cat1Cols (a b : T2) : Option T2 :=
  if a.length = b.length then some (List.zipWith (· ++ ·) a b) else none

/-- `torch.cat(_, dim=1)` for 3-d tensors: appends along the sequence axis;
requires equal batch sizes. -/
def cat1Seq (a b : T3) : Option T3 :=
  if a.length = b.length then some (List.zipWith (· ++ ·) a b) else none

/-- `torch.cat(_, dim=2)` for 3-d tensors: appends along the hidden axis;
requires equal batch sizes. -/
def cat2Hid (a b : T3) : Option T3 :=
  if a.length = b.length then some (List.zipWith (fun r s => List.zipWith (· ++ ·) r s) a b)
  else none

/-- `torch.cat(_, dim=0)` for 3-d tensors: stacks along the batch axis;
requires equal trailing dimensions. -/
def cat0 (a b : T3) : Option T3 :=
  if ((a ++ b).map (fun r => r.length)).Chain' (· = ·) then some (a ++ b) else none

/-- `x.repeat(1, k, 1).view(b*k, s, h)` (and the 2-d variant): each batch row is
repeated `k` times in consecutive positions — the mps-friendly tiling used by
the pipeline. -/
def tileRows {α : Type} (k : ℕ) (t : List α) : List α :=
  (t.map (List.replicate k)).flatten

/-- `x.chunk(2)` along the batch axis (for even batch sizes). -/
def chunk2 {α : Type} (t : List α) : List α × List α :=
  (t.take (t.length / 2), t.drop (t.length / 2))

/-- Elementwise sum of two 3-d tensors of the same shape. -/
def add3 (a b : T3) : T3 :=
  List.zipWith (fun r s => List.zipWith (fun v w => List.zipWith (· + ·) v w) r s) a b

/-- Elementwise difference of two 3-d tensors of the same shape. -/
def sub3 (a b : T3) : T3 :=
  List.zipWith (fun r s => List.zipWith (fun v w => List.zipWith (· - ·) v w) r s) a b

/-- Scalar multiple of a 3-d tensor. -/
def smul3 (c : ℚ) (t : T3) : T3 := t.map (fun r => r.map (fun v => v.map (fun x => c * x)))

/-- Python `int(q)`: truncation toward zero. -/
def pyInt (q : ℚ) : ℤ := if q < 0 then ⌈q⌉ else ⌊q⌋

/-- Python list slicing `l[s:e]` with clamping (step 1). -/
def pySlice {α : Type} (s e : ℤ) (l : List α) : List α :=
  let n : ℤ := l.length
  let norm : ℤ → ℤ := fun i => if i < 0 then max (n + i) 0 else min i n
  ((l.drop (norm s).toNat).take ((norm e).toNat - (norm s).toNat))

/-- Lines 281-340 of the source: batch-size-independent conditional branch.
Tokenize the prompt (both truncated and untruncated — the untruncated pass only
feeds a log warning, which has no effect on any returned value), encode,
project, mask, and splice the two temporal embeddings onto the text stream.
Returns the cross-attention context, its extended mask, the global context,
and the pair of temporal embeddings that line 432 of the negative branch
would reuse (that read is unreachable: line 412 fails first). -/
def conditionalBranch (M : Model) (promptStrings : List String) (starts ends : List ℚ) :
    EvM (T3 × T2 × T3 × (T3 × T3)) := do
  emit (.tok promptStrings)
  let (text_input_ids, tokMask) := M.tokenize promptStrings
  emit (.tokLong promptStrings)
  let _untruncated_ids := M.tokenizeLongest promptStrings
  emit (.txtEnc text_input_ids tokMask)
  let prompt_embeds0 := M.textEncode text_input_ids tokMask
  emit (.proj prompt_embeds0 tokMask starts ends)
  let projection_output := M.project prompt_embeds0 tokMask starts ends
  -- prompt_embeds = projection_output.text_hidden_states * attention_mask.unsqueeze(-1)
  let prompt_embeds := maskMul projection_output.text_hidden_states tokMask
  let attention_mask := projection_output.attention_mask
  let ssh := projection_output.seconds_start_hidden_states
  let seh := projection_output.seconds_end_hidden_states
  -- cross_attention_hidden_states = cat([prompt_embeds, ssh, seh], dim=1)
  let some c1 := cat1Seq prompt_embeds ssh | throwE .shapeError
  let some cross := cat1Seq c1 seh | throwE .shapeError
  -- attention_mask = cat([attention_mask, ones((1,1)), ones((1,1))], dim=1)
  let some m1 := cat1Cols attention_mask (ones2 1 1) | throwE .shapeError
  let some mask2 := cat1Cols m1 (ones2 1 1) | throwE .shapeError
  -- global_hidden_states = cat([ssh, seh], dim=2)
  let some ghs := cat2Hid ssh seh | throwE .shapeError
  pure (cross, mask2, ghs, (ssh, seh))

/-- Lines 199-448 of the source: `StableAudioPipeline.encode_prompt_and_seconds`.
`audio_start_in_s` / `audio_end_in_s` arrive as scalars from `__call__` and are
wrapped into singleton lists exactly as lines 288-289 do. -/
def encode_prompt_and_seconds (M : Model) (prompt : PromptArg)
    (audio_start_in_s audio_end_in_s : ℚ) (num_waveforms_per_prompt : ℕ)
    (do_classifier_free_guidance : Bool) (negative_prompt : PromptArg)
    (cross_attention_hidden_states : Option T3)
    (negative_cross_attention_hidden_states : Option T3)
    (attention_mask : Option T2) (negative_attention_mask : Option T2) :
    EvM (T3 × T2 × T3) := do
  -- lines 281-286: batch size resolution; `None.shape` raises AttributeError
  let batch_size ←
    match prompt, cross_attention_hidden_states with
    | .str _, _ => pure 1
    | .list l, _ => pure l.length
    | .null, some c => pure c.length
    | .null, none => throwE .attributeError
  let starts := [audio_start_in_s]
  let ends := [audio_end_in_s]
  -- lines 291-340: only taken when no pre-computed context was supplied;
  -- otherwise `global_hidden_states` and the temporal embeddings stay unbound
  let (cross0, maskOpt, ghsOpt, _sshsehOpt) ←
    match cross_attention_hidden_states with
    | none => do
      let promptStrings :=
        match prompt with
        | .str s => [s]
        | .list l => l
        | .null => []
      let (cross, mask2, ghs, sshseh) ← conditionalBranch M promptStrings starts ends
      pure (cross, some mask2, some ghs, some sshseh)
    | some c => pure (c, attention_mask, none, none)
  -- line 343: unconditional read of `global_hidden_states` — unbound when the
  -- pre-computed path was taken (UnboundLocalError)
  let some global_hidden_states0 := ghsOpt | throwE .unboundLocal
  -- lines 344-348: mask fallback
  let attention_mask0 :=
    match maskOpt with
    | some m => m
    | none => ones2 cross0.length (seqLen cross0)
  -- lines 350-360: tile every per-request tensor num_waveforms_per_prompt times
  let cross1 := tileRows num_waveforms_per_prompt cross0
  let global1 := tileRows num_waveforms_per_prompt global_hidden_states0
  let mask1 := tileRows num_waveforms_per_prompt attention_mask0
  -- lines 363-365: double global context and mask for guidance
  let global2 := if do_classifier_free_guidance then global1 ++ global1 else global1
  let mask2 := if do_classifier_free_guidance then mask1 ++ mask1 else mask1
  -- `if do_classifier_free_guidance and negative_prompt is None / elif
  -- do_classifier_free_guidance / else`, rendered as one match on the pair
  match do_classifier_free_guidance, negative_prompt with
  | true, .null => do
    -- lines 369-379: zero unconditional branch
    let ncross0 :=
      match negative_cross_attention_hidden_states with
      | some n => n
      | none => zerosLike cross1
    let ncross1 :=
      match negative_attention_mask with
      | some nm => torchWhere nm ncross0
      | none => ncross0
    let some crossFinal := cat0 ncross1 cross1 | throwE .shapeError
    pure (crossFinal, mask2, global2)
  | true, _ => do
    -- lines 381-398: negative prompt path
    let uncond_tokens ←
      match prompt, negative_prompt with
      | .str _, .str ns => pure [ns]
      | .list _, .list nl =>
        if batch_size ≠ nl.length then throwE .valueError else pure nl
      | _, _ => throwE .typeError
    -- lines 400-409: tokenize the negative prompt
    emit (.tok uncond_tokens)
    let (_uncond_input_ids, _negTokMask) := M.tokenize uncond_tokens
    -- line 412: `torch.set_grad_enabled(self.enable_grad)` evaluates
    -- `self.enable_grad` eagerly; that attribute is never assigned on the
    -- pipeline nor defined on its base classes, so the read raises
    -- AttributeError before the text encoder (line 413) or the projection
    -- model (line 419) is invoked on the negative branch
    throwE .attributeError
  | false, _ =>
    pure (cross1, mask2, global2)

/-- The arguments of `StableAudioPipeline.__call__` (lines 558-580).
`callback` itself has no effect on any returned value and is omitted;
`callback_steps` is kept because `check_inputs` validates it.
`output_type` is the raw string option of the source. -/
structure CallArgs where
  prompt : PromptArg := .null
  audio_length_in_s : Option ℚ := none
  audio_start_in_s : ℚ := 0
  num_inference_steps : ℕ := 100
  guidance_scale : ℚ := 7
  negative_prompt : PromptArg := .null
  num_waveforms_per_prompt : ℕ := 1
  generator : GenArg := .null
  latents : Option T3 := none
  initial_audio_waveforms : Option T3 := none
  cross_attention_hidden_states : Option T3 := none
  negative_cross_attention_hidden_states : Option T3 := none
  attention_mask : Option T2 := none
  negative_attention_mask : Option T2 := none
  return_dict : Bool := true
  callback_steps : Option ℤ := some 1
  output_type : String := "np"

/-- The value returned by `__call__`: an `AudioPipelineOutput` (one field,
`audios`) or a plain one-element tuple. -/
inductive PipeResult where
  | dict (audios : T3)
  | tup (audios : T3)
  deriving DecidableEq, Repr

/-- Lines 468-530 of the source: `StableAudioPipeline.check_inputs`.  Pure
validation: no collaborator is invoked here.  The `isinstance(prompt, str/list)`
arm is unrepresentable because `PromptArg` only has the three legal shapes. -/
def check_inputs (A : CallArgs) (audio_length_in_s : ℚ) : Except Err Unit := do
  -- min_audio_length_in_s = 2.0
  if audio_length_in_s < 2 then throw .valueError
  -- callback_steps must be a positive integer
  match A.callback_steps with
  | none => throw .valueError
  | some k => if k ≤ 0 then throw .valueError
  -- exactly one of prompt / cross_attention_hidden_states
  if A.prompt ≠ .null ∧ A.cross_attention_hidden_states.isSome then throw .valueError
  else if A.prompt = .null ∧ A.cross_attention_hidden_states = none then throw .valueError
  -- at most one of negative_prompt / negative_cross_attention_hidden_states
  if A.negative_prompt ≠ .null ∧ A.negative_cross_attention_hidden_states.isSome then
    throw .valueError
  -- shape agreement of pre-supplied contexts and mask
  match A.cross_attention_hidden_states, A.negative_cross_attention_hidden_states with
  | some c, some nc =>
    if shape3 c ≠ shape3 nc then throw .valueError
    match A.attention_mask with
    | some m => if shape2 m ≠ (c.length, seqLen c) then throw .valueError else pure ()
    | none => pure ()
  | _, _ => pure ()

/-- Lines 533-554 of the source: `StableAudioPipeline.prepare_latents`.
`randn_tensor` is the deterministic noise collaborator `M.randn`.  At line 552
the source calls `torch.repeat(encoded_audio, ...)`; the `torch` module has no
function `repeat` (`repeat` is a `Tensor` method), so every call that reaches
that line raises `AttributeError` — after the vae encode of line 551 ran. -/
def prepare_latents (M : Model) (batch_size num_channels_vae sample_size : ℕ)
    (generator : GenArg) (latents : Option T3) (initial_audio_waveforms : Option T3)
    (_num_waveforms_per_prompt : ℕ) : EvM T3 := do
  match generator with
  | .genList n => if n ≠ batch_size then throwE .valueError
  | _ => pure ()
  let latents0 :=
    match latents with
    | none => M.randn (batch_size, num_channels_vae, sample_size)
    | some l => l
  -- scale the initial noise by the standard deviation required by the scheduler;
  -- applied unconditionally, also to pre-supplied latents
  let latents1 := smul3 M.initNoiseSigma latents0
  match initial_audio_waveforms with
  | none => pure latents1
  | some w => do
    emit (.vaeEnc w)
    let _encoded_audio := M.vaeEncode w
    -- torch.repeat(encoded_audio, (num_waveforms_per_prompt*encoded_audio.shape[0], 1, 1))
    throwE .attributeError

/-- Lines 736-766 of the source: the denoising loop body, one recursion per
scheduler timestep.  The progress bar and the user callback have no effect on
any returned value and are omitted.  The rotary embedding pair `rot` is
constant across iterations. -/
def denoiseLoop (M : Model) (do_classifier_free_guidance : Bool) (guidance_scale : ℚ)
    (cross : T3) (global_hidden_states : T3) (rot : ℕ × ℕ) :
    List ℚ → T3 → EvM T3
  | [], latents => pure latents
  | t :: ts, latents => do
    -- expand the latents if we are doing classifier free guidance
    let latent_model_input0 := if do_classifier_free_guidance then latents ++ latents else latents
    let latent_model_input := M.scaleModelInput latent_model_input0 t
    emit (.trans latent_model_input t)
    let noise_pred0 := M.transformer latent_model_input t cross global_hidden_states rot
    -- perform guidance: uncond first half, cond second half
    let noise_pred :=
      if do_classifier_free_guidance then
        let uncond := (chunk2 noise_pred0).1
        let cond := (chunk2 noise_pred0).2
        add3 uncond (smul3 guidance_scale (sub3 cond uncond))
      else noise_pred0
    emit (.sched noise_pred t latents)
    let latents1 := M.schedStep noise_pred t latents
    denoiseLoop M do_classifier_free_guidance guidance_scale cross global_hidden_states rot
      ts latents1

/-- Lines 770-785 of the source: post-processing.  With `output_type="latent"`
the raw latent is returned inside an `AudioPipelineOutput` immediately — before
the `return_dict` branch is reached.  Otherwise the full latent is decoded and
only afterwards sliced on the time axis with the truncated frame indices. -/
def postProcessing (M : Model) (A : CallArgs) (waveform_start waveform_end : ℤ)
    (latents : T3) : EvM PipeResult := do
  if A.output_type ≠ "latent" then do
    emit (.vaeDec latents)
    let audio0 := M.vaeDecode latents
    -- audio = audio[:, :, waveform_start*downsample_ratio:waveform_end*downsample_ratio]
    let audio :=
      audio0.map (fun ch =>
        ch.map (pySlice (waveform_start * (M.hop_length : ℤ)) (waveform_end * (M.hop_length : ℤ))))
    -- output_type == "np" converts to numpy: a type conversion with no numeric effect
    if !A.return_dict then pure (.tup audio) else pure (.dict audio)
  else
    pure (.dict latents)

/-- Lines 556-785 of the source: `StableAudioPipeline.__call__`, with
`do_classifier_free_guidance` exposed as an explicit parameter (the entry point
`StableAudioPipeline_call` instantiates it with `guidance_scale > 1.0`, line
691; this parametrised form is the "guidance forced off/on" reference of the
spec's guidance-disable property). -/
def pipelineCallWith (M : Model) (A : CallArgs) (do_classifier_free_guidance : Bool) :
    EvM PipeResult := do
  -- line 652: downsample_ratio = vae.hop_length
  let downsample_ratio := M.hop_length
  -- lines 655-657: default audio length
  let max_audio_length_in_s : ℚ := (M.sample_size : ℚ) * downsample_ratio / M.sampling_rate
  let audio_length_in_s := A.audio_length_in_s.getD max_audio_length_in_s
  -- lines 659-660
  let _ ← (if audio_length_in_s - A.audio_start_in_s > max_audio_length_in_s then
      throwE Err.valueError else pure () : EvM Unit)
  -- lines 662-664: frame indices via Python int() truncation
  let waveform_start := pyInt (A.audio_start_in_s * M.sampling_rate / downsample_ratio)
  let waveform_end := pyInt (audio_length_in_s * M.sampling_rate / downsample_ratio)
  let waveform_length := M.sample_size
  -- lines 666-677
  let _ ← (match check_inputs A audio_length_in_s with
    | .error e => throwE e
    | .ok _ => pure () : EvM Unit)
  -- lines 680-685
  let batch_size ← (match A.prompt, A.cross_attention_hidden_states with
    | .str _, _ => pure 1
    | .list l, _ => pure l.length
    | .null, some c => pure c.length
    | .null, none => throwE Err.attributeError : EvM ℕ)
  -- lines 693-707
  let (cross, _attention_mask, global_hidden_states) ←
    encode_prompt_and_seconds M A.prompt A.audio_start_in_s audio_length_in_s
      A.num_waveforms_per_prompt do_classifier_free_guidance A.negative_prompt
      A.cross_attention_hidden_states A.negative_cross_attention_hidden_states
      A.attention_mask A.negative_attention_mask
  -- lines 710-711
  let timesteps := M.schedule A.num_inference_steps
  -- lines 715-726
  let latents ←
    prepare_latents M (batch_size * A.num_waveforms_per_prompt) M.in_channels waveform_length
      A.generator A.latents A.initial_audio_waveforms A.num_waveforms_per_prompt
  -- line 732: rotary embedding sized to latent length + global context length
  let rotary_embed_dim := max (M.attention_head_dim / 2) 32
  let rot := (rotary_embed_dim, dim2 latents + seqLen global_hidden_states)
  -- lines 736-766
  let latentsFinal ←
    denoiseLoop M do_classifier_free_guidance A.guidance_scale cross global_hidden_states rot
      timesteps latents
  -- lines 770-785
  postProcessing M A waveform_start waveform_end latentsFinal

/-- The pipeline entry point: line 691 gates guidance on `guidance_scale > 1.0`. -/
def StableAudioPipeline_call (M : Model) (A : CallArgs) : EvM PipeResult :=
  pipelineCallWith M A (decide (1 < A.guidance_scale))

/-- A small concrete instantiation of the collaborators, used by the witness
and counterexample theorems.  Token ids encode the string length so that
different prompts produce different embeddings; the projection returns its
mask argument unchanged and derives the two temporal embeddings from the
hidden states so that conditional and unconditional temporal embeddings are
distinguishable. -/
def stubModel : Model where
  tokenize := fun ps => (ps.map (fun s => [(s.length : ℚ), 1]), ps.map (fun _ => [1, 1]))
  tokenizeLongest := fun ps => ps.map (fun s => [(s.length : ℚ), 1])
  textEncode := fun ids _mask => ids.map (fun r => r.map (fun v => [v]))
  project := fun h m _s _e =>
    { text_hidden_states := h
      attention_mask := m
      seconds_start_hidden_states := h.map (fun row => [row.headD [0]])
      seconds_end_hidden_states := h.map (fun row => [row.headD [0]]) }
  transformer := fun inp _t _c _g _rot => inp
  vaeEncode := fun w => w
  vaeDecode := fun _l =>
    [[[0, 1, 2, 3, 4, 5, 6, 7, 8, 9, 10, 11, 12,
       13, 14, 15, 16, 17, 18, 19, 20, 21, 22, 23]]]
  hop_length := 4
  sampling_rate := 10
  sample_size := 6
  in_channels := 1
  schedule := fun n => (List.range n).map (fun i => (i : ℚ))
  scaleModelInput := fun x _t => x
  schedStep := fun _n _t l => l
  initNoiseSigma := 1
  schedOrder := 1
  randn := fun s => List.replicate s.1 (List.replicate s.2.1 (List.replicate s.2.2 (0 : ℚ)))
  attention_head_dim := 64

/-! ### Basic lemmas about the trace monad and the tensor operations -/

theorem EvM_bind_eq {α β : Type} (x : EvM α) (f : α → EvM β) : x >>= f = EvM.bind x f := rfl

theorem EvM_pure {α : Type} (a : α) : (pure a : EvM α) = ([], Except.ok a) := rfl

theorem EvM_eta {α : Type} (x : EvM α) : x = (x.1, x.2) := rfl

theorem EvM_bind_ok {α β : Type} (x : EvM α) (a : α) (f : α → EvM β)
    (hx : x.2 = Except.ok a) : x >>= f = (x.1 ++ (f a).1, (f a).2) := by
  rw [EvM_bind_eq]
  unfold EvM.bind
  rw [hx]

theorem EvM_bind_err {α β : Type} (x : EvM α) (e : Err) (f : α → EvM β)
    (hx : x.2 = Except.error e) : x >>= f = (x.1, Except.error e) := by
  rw [EvM_bind_eq]
  unfold EvM.bind
  rw [hx]

theorem EvM_bind_eq_ok {α β : Type} {x : EvM α} {f : α → EvM β} {tr : List Ev} {b : β}
    (h : (x >>= f) = (tr, Except.ok b)) :
    ∃ t1 a t2, x = (t1, Except.ok a) ∧ f a = (t2, Except.ok b) ∧ tr = t1 ++ t2 := by
  cases hx2 : x.2 with
  | error e =>
    rw [EvM_bind_err x e f hx2] at h
    exact absurd (congrArg Prod.snd h) (by simp)
  | ok a =>
    rw [EvM_bind_ok x a f hx2] at h
    have h1 := congrArg Prod.fst h
    have h2 := congrArg Prod.snd h
    simp only at h1 h2
    exact ⟨x.1, a, (f a).1, by rw [EvM_eta x, hx2], by rw [EvM_eta (f a), h2], h1.symm⟩

theorem EvM_mem_bind {α β : Type} {x : EvM α} {f : α → EvM β} {e : Ev}
    (h : e ∈ (x >>= f).1) :
    e ∈ x.1 ∨ ∃ a, x.2 = Except.ok a ∧ e ∈ (f a).1 := by
  cases hx2 : x.2 with
  | error er =>
    rw [EvM_bind_err x er f hx2] at h
    exact Or.inl h
  | ok a =>
    rw [EvM_bind_ok x a f hx2] at h
    rcases List.mem_append.mp h with h1 | h2
    · exact Or.inl h1
    · exact Or.inr ⟨a, rfl, h2⟩

theorem cat0_eq_append {a b x : T3} (h : cat0 a b = some x) : x = a ++ b := by
  unfold cat0 at h
  split at h
  · exact (Option.some.inj h).symm
  · exact absurd h (by simp)

/-- The conditional branch always invokes exactly these four collaborators, in
this order, whatever its final outcome: tokenizer (truncating), tokenizer
(untruncated), text encoder, projection model. -/
theorem condBranch_trace (M : Model) (ps : List String) (s e : List ℚ) :
    (conditionalBranch M ps s e).1 =
      [Ev.tok ps, Ev.tokLong ps, Ev.txtEnc (M.tokenize ps).1 (M.tokenize ps).2,
       Ev.proj (M.textEncode (M.tokenize ps).1 (M.tokenize ps).2) (M.tokenize ps).2 s e] := by
  unfold conditionalBranch
  simp only [EvM_bind_eq, EvM.bind, emit, throwE, EvM_pure]
  repeat' split
  all_goals simp

theorem tileRows_length {α : Type} (k : ℕ) (t : List α) :
    (tileRows k t).length = t.length * k := by
  induction t with
  | nil => simp [tileRows]
  | cons a l ih =>
    simp only [tileRows, List.map_cons, List.flatten_cons, List.length_append,
      List.length_replicate, List.length_cons] at *
    rw [ih]
    ring

theorem cat1Seq_some {a b x : T3} (h : cat1Seq a b = some x) :
    x.length = a.length ∧ a.length = b.length := by
  unfold cat1Seq at h
  split at h
  · rename_i hl
    cases h
    simp [List.length_zipWith, hl]
  · exact absurd h (by simp)

theorem zerosLike_length (t : T3) : (zerosLike t).length = t.length := by
  simp [zerosLike]

theorem maskMul_length (t : T3) (m : T2) : (maskMul t m).length = min t.length m.length := by
  simp [maskMul, List.length_zipWith]

/-- Under batch-preserving collaborators, the conditional branch returns a
cross-attention context with one batch row per prompt. -/
theorem condBranch_cross_length (M : Model) (ps : List String) (s e : List ℚ)
    (tr : List Ev) (cross : T3) (m2 : T2) (g : T3) (ss : T3 × T3)
    (htok : ∀ qs, ((M.tokenize qs).1.length = qs.length ∧ (M.tokenize qs).2.length = qs.length))
    (henc : ∀ ids m, (M.textEncode ids m).length = ids.length)
    (hproj : ∀ hdn m st en, (M.project hdn m st en).text_hidden_states.length = hdn.length)
    (h : conditionalBranch M ps s e = (tr, Except.ok (cross, m2, g, ss))) :
    cross.length = ps.length := by
  unfold conditionalBranch at h
  simp only [EvM_bind_eq, EvM.bind, emit, throwE, EvM_pure] at h
  repeat' split at h
  all_goals try exact absurd (congrArg Prod.snd h) (fun hc => Except.noConfusion hc)
  rename_i x4 c1 hc1 x3 cross0 hc2 x2 m1v hm1 x1 mask2v hm2 x0 ghsv hg
  have hv := congrArg Prod.snd h
  simp only [Except.ok.injEq, Prod.mk.injEq] at hv
  obtain ⟨h1, -, -, -⟩ := hv
  rw [← h1]
  obtain ⟨hx2, -⟩ := cat1Seq_some hc2
  obtain ⟨hx1, -⟩ := cat1Seq_some hc1
  rw [hx2, hx1, maskMul_length, hproj, henc, (htok ps).1, (htok ps).2, min_self]

/-- When a pre-computed context is supplied, the branch that defines
`global_hidden_states` is skipped, and the unconditional read at line 343
raises UnboundLocalError before any collaborator is invoked. -/
theorem encode_precomputed_unbound (M : Model) (p : PromptArg) (s e : ℚ) (nw : ℕ)
    (cfg : Bool) (neg : PromptArg) (c : T3) (onc : Option T3) (oa ona : Option T2) :
    encode_prompt_and_seconds M p s e nw cfg neg (some c) onc oa ona
      = ([], Except.error Err.unboundLocal) := by
  cases p <;> rfl

/-- If the guided (classifier-free-guidance) run of the conditioning builder
succeeds, the unguided run on the same arguments succeeds too, and the guided
cross-attention context is exactly an unconditional block followed by the
unguided (conditional) context, with the mask and global context doubled. -/
theorem encode_guided_split (M : Model) (s e : ℚ) (nw : ℕ) (p : PromptArg) (neg : PromptArg)
    (oa : Option T2) (trT : List Ev) (crossT : T3) (maskT : T2) (gT : T3)
    (_htok : ∀ qs, ((M.tokenize qs).1.length = qs.length ∧ (M.tokenize qs).2.length = qs.length))
    (_henc : ∀ ids m, (M.textEncode ids m).length = ids.length)
    (_hproj : ∀ hdn m st en, (M.project hdn m st en).text_hidden_states.length = hdn.length)
    (h : encode_prompt_and_seconds M p s e nw true neg none none oa none
      = (trT, Except.ok (crossT, maskT, gT))) :
    ∃ trF crossF maskF gF negCtx,
      encode_prompt_and_seconds M p s e nw false neg none none oa none
        = (trF, Except.ok (crossF, maskF, gF))
      ∧ crossT = negCtx ++ crossF ∧ negCtx.length = crossF.length
      ∧ maskT = maskF ++ maskF ∧ gT = gF ++ gF := by
  cases p with
  | null =>
    exact absurd (congrArg Prod.snd h) (fun hc => Except.noConfusion hc)
  | str s0 =>
    obtain ⟨cbt, cbr, hcb⟩ : ∃ t r, conditionalBranch M [s0] [s] [e] = (t, r) := ⟨_, _, rfl⟩
    unfold encode_prompt_and_seconds at h ⊢
    simp only [EvM_bind_eq, EvM.bind, emit, throwE, EvM_pure, hcb] at h ⊢
    cases cbr with
    | error e0 =>
      exact absurd (congrArg Prod.snd h) (fun hc => Except.noConfusion hc)
    | ok q =>
      obtain ⟨cross0, mask2q, ghsq, sshq, sehq⟩ := q
      simp only [EvM_bind_eq, EvM.bind, emit, throwE, EvM_pure, and_self, if_true,
        eq_self_iff_true, true_and, and_true, List.nil_append, List.append_nil] at h ⊢
      cases neg with
      | null =>
        cases hcat : cat0 (zerosLike (tileRows nw cross0)) (tileRows nw cross0) with
        | none =>
          rw [hcat] at h
          exact absurd (congrArg Prod.snd h) (fun hc => Except.noConfusion hc)
        | some cf =>
          rw [hcat] at h
          simp only [Prod.mk.injEq, Except.ok.injEq, List.append_nil] at h
          exact ⟨cbt, tileRows nw cross0, tileRows nw mask2q, tileRows nw ghsq,
            zerosLike (tileRows nw cross0),
            by simp only [Bool.false_eq_true, false_and, if_false, and_false,
              List.append_nil],
            by rw [← h.2.1]; exact cat0_eq_append hcat,
            by rw [zerosLike_length],
            h.2.2.1.symm, h.2.2.2.symm⟩
      | str ns =>
        repeat' split at h
        all_goals first
          | exact absurd (congrArg Prod.snd h) (fun hc => Except.noConfusion hc)
          | simp_all
      | list nl =>
        exact absurd (congrArg Prod.snd h) (fun hc => Except.noConfusion hc)
  | list ls =>
    obtain ⟨cbt, cbr, hcb⟩ : ∃ t r, conditionalBranch M ls [s] [e] = (t, r) := ⟨_, _, rfl⟩
    unfold encode_prompt_and_seconds at h ⊢
    simp only [EvM_bind_eq, EvM.bind, emit, throwE, EvM_pure, hcb] at h ⊢
    cases cbr with
    | error e0 =>
      exact absurd (congrArg Prod.snd h) (fun hc => Except.noConfusion hc)
    | ok q =>
      obtain ⟨cross0, mask2q, ghsq, sshq, sehq⟩ := q
      simp only [EvM_bind_eq, EvM.bind, emit, throwE, EvM_pure, and_self, if_true,
        eq_self_iff_true, true_and, and_true, List.nil_append, List.append_nil] at h ⊢
      cases neg with
      | null =>
        cases hcat : cat0 (zerosLike (tileRows nw cross0)) (tileRows nw cross0) with
        | none =>
          rw [hcat] at h
          exact absurd (congrArg Prod.snd h) (fun hc => Except.noConfusion hc)
        | some cf =>
          rw [hcat] at h
          simp only [Prod.mk.injEq, Except.ok.injEq, List.append_nil] at h
          exact ⟨cbt, tileRows nw cross0, tileRows nw mask2q, tileRows nw ghsq,
            zerosLike (tileRows nw cross0),
            by simp only [Bool.false_eq_true, false_and, if_false, and_false,
              List.append_nil],
            by rw [← h.2.1]; exact cat0_eq_append hcat,
            by rw [zerosLike_length],
            h.2.2.1.symm, h.2.2.2.symm⟩
      | str ns =>
        exact absurd (congrArg Prod.snd h) (fun hc => Except.noConfusion hc)
      | list nl =>
        repeat' split at h
        all_goals first
          | exact absurd (congrArg Prod.snd h) (fun hc => Except.noConfusion hc)
          | simp_all

/-- One guided iteration of the denoising loop: the latent is doubled as
`[latent, latent]`, the residual is split into (unconditional, conditional)
halves in that order, and recombined as `uncond + g * (cond - uncond)` before
the scheduler step. -/
theorem denoiseLoop_guided_step (M : Model) (g : ℚ) (cr gl : T3) (rot : ℕ × ℕ)
    (t : ℚ) (ts : List ℚ) (L : T3) :
    denoiseLoop M true g cr gl rot (t :: ts) L =
      (Ev.trans (M.scaleModelInput (L ++ L) t) t ::
        Ev.sched
          (add3 (chunk2 (M.transformer (M.scaleModelInput (L ++ L) t) t cr gl rot)).1
            (smul3 g
              (sub3 (chunk2 (M.transformer (M.scaleModelInput (L ++ L) t) t cr gl rot)).2
                (chunk2 (M.transformer (M.scaleModelInput (L ++ L) t) t cr gl rot)).1)))
          t L ::
        (denoiseLoop M true g cr gl rot ts
          (M.schedStep
            (add3 (chunk2 (M.transformer (M.scaleModelInput (L ++ L) t) t cr gl rot)).1
              (smul3 g
                (sub3 (chunk2 (M.transformer (M.scaleModelInput (L ++ L) t) t cr gl rot)).2
                  (chunk2 (M.transformer (M.scaleModelInput (L ++ L) t) t cr gl rot)).1)))
            t L)).1,
       (denoiseLoop M true g cr gl rot ts
          (M.schedStep
            (add3 (chunk2 (M.transformer (M.scaleModelInput (L ++ L) t) t cr gl rot)).1
              (smul3 g
                (sub3 (chunk2 (M.transformer (M.scaleModelInput (L ++ L) t) t cr gl rot)).2
                  (chunk2 (M.transformer (M.scaleModelInput (L ++ L) t) t cr gl rot)).1)))
            t L)).2) := by
  rw [denoiseLoop]
  simp only [EvM_bind_eq, EvM.bind, emit, if_true, List.cons_append, List.nil_append]

/-- An unguided iteration never doubles the latent: every noise-prediction
invocation in the trace receives an input whose batch size is that of the
latent the loop started from, provided the scheduler collaborators preserve
batch size. -/
theorem denoiseLoop_unguided_no_doubling (M : Model) (g : ℚ) (cr gl : T3) (rot : ℕ × ℕ)
    (hscale : ∀ x t, (M.scaleModelInput x t).length = x.length)
    (hstep : ∀ n t l, (M.schedStep n t l).length = l.length) :
    ∀ (ts : List ℚ) (L0 : T3) (inp : T3) (t : ℚ),
      Ev.trans inp t ∈ (denoiseLoop M false g cr gl rot ts L0).1 →
      inp.length = L0.length := by
  intro ts
  induction ts with
  | nil =>
    intro L0 inp t h
    simp only [denoiseLoop, EvM_pure, List.not_mem_nil] at h
  | cons t0 ts ih =>
    intro L0 inp t h
    rw [denoiseLoop] at h
    simp only [EvM_bind_eq, EvM.bind, emit, Bool.false_eq_true, if_false,
      List.cons_append, List.nil_append, List.mem_cons] at h
    rcases h with h | h | h
    · cases h with
      | refl => exact hscale L0 t0
    · exact absurd h (by simp)
    · rw [ih (M.schedStep (M.transformer (M.scaleModelInput L0 t0) t0 cr gl rot) t0 L0)
        inp t h, hstep]

/-! ### Stub collaborator facts used by witnesses -/

theorem stub_tok_len (qs : List String) :
    (stubModel.tokenize qs).1.length = qs.length ∧ (stubModel.tokenize qs).2.length = qs.length := by
  simp [stubModel]

theorem stub_enc_len (ids m : T2) : (stubModel.textEncode ids m).length = ids.length := by
  simp [stubModel]

theorem stub_proj_len (hdn : T3) (m : T2) (st en : List ℚ) :
    (stubModel.project hdn m st en).text_hidden_states.length = hdn.length := rfl

/-! ### Claim theorems -/

/-- C1: with guidance enabled, the conditioning construction returns a
cross-attention context whose leading rows are the unconditional branch and
whose trailing rows are exactly the conditional context (the one the unguided
run returns), the two blocks having equal row counts, with mask and global
context doubled accordingly; and the denoising loop splits the residual of a
guided step into (uncond, cond) halves in that same order and recombines them
as `uncond + guidance_scale * (cond - uncond)`. -/
theorem c1_guidance_order (M : Model) (s e : ℚ) (nw : ℕ) (p : PromptArg) (neg : PromptArg)
    (oa : Option T2) (trT : List Ev) (crossT : T3) (maskT : T2) (gT : T3)
    (htok : ∀ qs, ((M.tokenize qs).1.length = qs.length ∧ (M.tokenize qs).2.length = qs.length))
    (henc : ∀ ids m, (M.textEncode ids m).length = ids.length)
    (hproj : ∀ hdn m st en, (M.project hdn m st en).text_hidden_states.length = hdn.length)
    (h : encode_prompt_and_seconds M p s e nw true neg none none oa none
      = (trT, Except.ok (crossT, maskT, gT))) :
    (∃ trF crossF maskF gF negCtx,
      encode_prompt_and_seconds M p s e nw false neg none none oa none
        = (trF, Except.ok (crossF, maskF, gF))
      ∧ crossT = negCtx ++ crossF ∧ negCtx.length = crossF.length
      ∧ maskT = maskF ++ maskF ∧ gT = gF ++ gF)
    ∧ (∀ (g : ℚ) (cr gl : T3) (rot : ℕ × ℕ) (t : ℚ) (L : T3),
        denoiseLoop M true g cr gl rot [t] L
          = ([Ev.trans (M.scaleModelInput (L ++ L) t) t,
              Ev.sched
                (add3 (chunk2 (M.transformer (M.scaleModelInput (L ++ L) t) t cr gl rot)).1
                  (smul3 g
                    (sub3 (chunk2 (M.transformer (M.scaleModelInput (L ++ L) t) t cr gl rot)).2
                      (chunk2 (M.transformer (M.scaleModelInput (L ++ L) t) t cr gl rot)).1)))
                t L],
             Except.ok
               (M.schedStep
                 (add3 (chunk2 (M.transformer (M.scaleModelInput (L ++ L) t) t cr gl rot)).1
                   (smul3 g
                     (sub3 (chunk2 (M.transformer (M.scaleModelInput (L ++ L) t) t cr gl rot)).2
                       (chunk2 (M.transformer (M.scaleModelInput (L ++ L) t) t cr gl rot)).1)))
                 t L))) := by
  constructor
  · exact encode_guided_split M s e nw p neg oa trT crossT maskT gT htok henc hproj h
  · intro g cr gl rot t L
    rw [denoiseLoop_guided_step]
    simp [denoiseLoop, EvM_pure]

/-- Witness for C1 at the concrete stub collaborators, one prompt, guidance on. -/
theorem c1_guidance_order_witness :
    (∃ trF crossF maskF gF negCtx,
      encode_prompt_and_seconds stubModel (.str "a") 0 2 1 false .null none none none none
        = (trF, Except.ok (crossF, maskF, gF))
      ∧ [[[0],[0],[0],[0]], [[1],[1],[1],[1]]] = negCtx ++ crossF
      ∧ negCtx.length = crossF.length
      ∧ [[1,1,1,1],[1,1,1,1]] = maskF ++ maskF
      ∧ [[[1,1]],[[1,1]]] = gF ++ gF)
    ∧ (∀ (g : ℚ) (cr gl : T3) (rot : ℕ × ℕ) (t : ℚ) (L : T3),
        denoiseLoop stubModel true g cr gl rot [t] L
          = ([Ev.trans (stubModel.scaleModelInput (L ++ L) t) t,
              Ev.sched
                (add3 (chunk2 (stubModel.transformer (stubModel.scaleModelInput (L ++ L) t) t cr gl rot)).1
                  (smul3 g
                    (sub3 (chunk2 (stubModel.transformer (stubModel.scaleModelInput (L ++ L) t) t cr gl rot)).2
                      (chunk2 (stubModel.transformer (stubModel.scaleModelInput (L ++ L) t) t cr gl rot)).1)))
                t L],
             Except.ok
               (stubModel.schedStep
                 (add3 (chunk2 (stubModel.transformer (stubModel.scaleModelInput (L ++ L) t) t cr gl rot)).1
                   (smul3 g
                     (sub3 (chunk2 (stubModel.transformer (stubModel.scaleModelInput (L ++ L) t) t cr gl rot)).2
                       (chunk2 (stubModel.transformer (stubModel.scaleModelInput (L ++ L) t) t cr gl rot)).1)))
                 t L))) :=
  c1_guidance_order stubModel 0 2 1 (.str "a") .null none
    [Ev.tok ["a"], Ev.tokLong ["a"], Ev.txtEnc [[1,1]] [[1,1]], Ev.proj [[[1],[1]]] [[1,1]] [0] [2]]
    [[[0],[0],[0],[0]], [[1],[1],[1],[1]]] [[1,1,1,1],[1,1,1,1]] [[[1,1]],[[1,1]]]
    stub_tok_len stub_enc_len stub_proj_len
    (by
      simp only [encode_prompt_and_seconds, conditionalBranch, stubModel, EvM_bind_eq, EvM.bind,
        emit, EvM_pure, throwE, maskMul, cat1Seq, cat1Cols, cat2Hid, cat0, ones2, tileRows,
        zerosLike, torchWhere, List.map, List.zipWith, List.replicate, List.flatten,
        List.append_nil, List.nil_append, List.length, List.chain'_cons, List.chain'_singleton,
        List.cons_append, List.headD, if_true, show "a".length = 1 from rfl, Nat.cast_one]
      norm_num)

/-- C2: `guidance_scale <= 1.0` makes the entry point identical to the pipeline
with guidance forced off (the sole gate, line 691), and the unguided loop never
duplicates the latent batch: every noise-prediction input keeps the batch size
of the loop entry latent (given batch-preserving scheduler collaborators). -/
theorem c2_guidance_disable (M : Model) (A : CallArgs)
    (hg : A.guidance_scale ≤ 1)
    (hscale : ∀ x t, (M.scaleModelInput x t).length = x.length)
    (hstep : ∀ n t l, (M.schedStep n t l).length = l.length) :
    StableAudioPipeline_call M A = pipelineCallWith M A false
    ∧ ∀ (g : ℚ) (cr gl : T3) (rot : ℕ × ℕ) (ts : List ℚ) (L0 inp : T3) (t : ℚ),
        Ev.trans inp t ∈ (denoiseLoop M false g cr gl rot ts L0).1 →
        inp.length = L0.length := by
  constructor
  · unfold StableAudioPipeline_call
    rw [decide_eq_false (not_lt.mpr hg)]
  · intro g cr gl rot ts L0 inp t h
    exact denoiseLoop_unguided_no_doubling M g cr gl rot hscale hstep ts L0 inp t h

/-- Arguments of the C2 witness: a one-prompt call with `guidance_scale = 1`. -/
def c2Args : CallArgs :=
  { prompt := .str "a", audio_length_in_s := some 2, num_inference_steps := 1,
    guidance_scale := 1 }

/-- Witness for C2 at the stub collaborators. -/
theorem c2_guidance_disable_witness :
    StableAudioPipeline_call stubModel c2Args = pipelineCallWith stubModel c2Args false
    ∧ ∀ (g : ℚ) (cr gl : T3) (rot : ℕ × ℕ) (ts : List ℚ) (L0 inp : T3) (t : ℚ),
        Ev.trans inp t ∈ (denoiseLoop stubModel false g cr gl rot ts L0).1 →
        inp.length = L0.length :=
  c2_guidance_disable stubModel c2Args (le_refl 1) (fun _ _ => rfl) (fun _ _ _ => rfl)

/-- C10: when a pre-computed `cross_attention_hidden_states` is supplied in
place of a text prompt, the conditioning builder skips the branch defining
`global_hidden_states` and its unconditional read fails with an unbound-local
error before any collaborator runs; consequently the whole call fails with an
empty collaborator trace — no denoising step ever executes. -/
theorem c10_precomputed_unbound (M : Model) (c : T3) :
    (∀ (s e : ℚ) (nw : ℕ) (cfg : Bool) (neg : PromptArg) (onc : Option T3) (oa ona : Option T2),
      encode_prompt_and_seconds M .null s e nw cfg neg (some c) onc oa ona
        = ([], Except.error Err.unboundLocal))
    ∧ (∀ (A : CallArgs) (tr : List Ev) (r : Except Err PipeResult),
        A.prompt = .null → A.cross_attention_hidden_states = some c →
        StableAudioPipeline_call M A = (tr, r) →
        tr = [] ∧ ∃ err, r = Except.error err) := by
  constructor
  · intro s e nw cfg neg onc oa ona
    exact encode_precomputed_unbound M .null s e nw cfg neg c onc oa ona
  · intro A tr r hp hc hcall
    unfold StableAudioPipeline_call pipelineCallWith at hcall
    rw [hp, hc] at hcall
    simp only [EvM_bind_eq, EvM.bind, throwE, EvM_pure, emit,
      encode_precomputed_unbound] at hcall
    repeat' split at hcall
    all_goals
      exact ⟨(congrArg Prod.fst hcall).symm, ⟨_, (congrArg Prod.snd hcall).symm⟩⟩

/-- Arguments of the C10 witness: pre-computed context, no prompt. -/
def c10Args : CallArgs :=
  { cross_attention_hidden_states := some [[[1]]], audio_length_in_s := some 2 }

/-- Witness for C10 at the stub collaborators. -/
theorem c10_precomputed_unbound_witness :
    encode_prompt_and_seconds stubModel .null 0 2 1 true .null (some [[[1]]]) none none none
      = ([], Except.error Err.unboundLocal)
    ∧ ((StableAudioPipeline_call stubModel c10Args).1 = []
       ∧ ∃ err, (StableAudioPipeline_call stubModel c10Args).2 = Except.error err) :=
  ⟨(c10_precomputed_unbound stubModel [[[1]]]).1 0 2 1 true .null none none none,
   (c10_precomputed_unbound stubModel [[[1]]]).2 c10Args _ _ rfl rfl rfl⟩

/-- C6 (code bug): any call of `prepare_latents` that supplies
`initial_audio_waveforms` encodes the seed audio and then raises
AttributeError, because line 552 calls `torch.repeat`, a function the torch
module does not have (`repeat` is a `Tensor` method).  The latent composition
the spec describes is never reached. -/
theorem c6_initial_audio_attribute_error :
    prepare_latents stubModel 1 1 6 .null none (some [[[1, 1]]]) 1
      = ([Ev.vaeEnc [[[1, 1]]]], Except.error Err.attributeError)
    ∧ ∀ (M : Model) (bs ch ss nw : ℕ) (lat : Option T3) (w : T3),
        (prepare_latents M bs ch ss .null lat (some w) nw).2
          = Except.error Err.attributeError := by
  constructor
  · rfl
  · intro M bs ch ss nw lat w
    cases lat <;> rfl

/-- C7 (code bug): line 338 extends the attention mask by concatenating
`torch.ones((1, 1))` columns; `torch.cat` does not broadcast, so any prompt
list of two or more entries (mask batch 2) raises a size-mismatch error after
tokenization, encoding and projection, instead of producing a `[B, S+2]` mask. -/
theorem c7_mask_extension_batch_two :
    encode_prompt_and_seconds stubModel (.list ["a", "bb"]) 0 2 1 false .null none none none none
      = ([Ev.tok ["a", "bb"], Ev.tokLong ["a", "bb"],
          Ev.txtEnc [[1, 1], [2, 1]] [[1, 1], [1, 1]],
          Ev.proj [[[1], [1]], [[2], [1]]] [[1, 1], [1, 1]] [0] [2]],
         Except.error Err.shapeError)
    ∧ cat1Cols [[1, 1], [1, 1]] (ones2 1 1) = none := by
  constructor
  · simp only [encode_prompt_and_seconds, conditionalBranch, stubModel, EvM_bind_eq, EvM.bind,
      emit, EvM_pure, throwE, maskMul, cat1Seq, cat1Cols, cat2Hid, cat0, ones2, tileRows,
      zerosLike, torchWhere, List.map, List.zipWith, List.replicate, List.flatten,
      List.append_nil, List.nil_append, List.length, List.chain'_cons, List.chain'_singleton,
      List.cons_append, List.headD, if_true, show "a".length = 1 from rfl,
      show "bb".length = 2 from rfl, Nat.cast_one, Nat.cast_ofNat]
    norm_num
  · rfl

/-- C4 counterexample: with a prompt list of length 2 and a negative-prompt
list of length 3 under guidance, the call does fail, but only after the
tokenizer, text encoder and projection model have all been invoked on the
conditional branch — not before tokenization as the claim states (and the
failure at this input is the mask-extension shape error of line 338, which
preempts the length-mismatch ValueError of line 391). -/
theorem c4_mismatch_counterexample :
    encode_prompt_and_seconds stubModel (.list ["a", "bb"]) 0 2 1 true
        (.list ["x", "y", "z"]) none none none none
      = ([Ev.tok ["a", "bb"], Ev.tokLong ["a", "bb"],
          Ev.txtEnc [[1, 1], [2, 1]] [[1, 1], [1, 1]],
          Ev.proj [[[1], [1]], [[2], [1]]] [[1, 1], [1, 1]] [0] [2]],
         Except.error Err.shapeError)
    ∧ Ev.tok ["a", "bb"] ∈
        [Ev.tok ["a", "bb"], Ev.tokLong ["a", "bb"],
         Ev.txtEnc [[1, 1], [2, 1]] [[1, 1], [1, 1]],
         Ev.proj [[[1], [1]], [[2], [1]]] [[1, 1], [1, 1]] [0] [2]] := by
  constructor
  · simp only [encode_prompt_and_seconds, conditionalBranch, stubModel, EvM_bind_eq, EvM.bind,
      emit, EvM_pure, throwE, maskMul, cat1Seq, cat1Cols, cat2Hid, cat0, ones2, tileRows,
      zerosLike, torchWhere, List.map, List.zipWith, List.replicate, List.flatten,
      List.append_nil, List.nil_append, List.length, List.chain'_cons, List.chain'_singleton,
      List.cons_append, List.headD, if_true, show "a".length = 1 from rfl,
      show "bb".length = 2 from rfl, Nat.cast_one, Nat.cast_ofNat]
    norm_num
  · exact List.mem_cons_self _ _

/-- The conditional branch of the stub collaborators on prompt `"a"`. -/
theorem stub_condBranch_a :
    conditionalBranch stubModel ["a"] [0] [2]
      = ([Ev.tok ["a"], Ev.tokLong ["a"], Ev.txtEnc [[1, 1]] [[1, 1]],
          Ev.proj [[[1], [1]]] [[1, 1]] [0] [2]],
         Except.ok ([[[1], [1], [1], [1]]], [[1, 1, 1, 1]], [[[1, 1]]], ([[[1]]], [[[1]]]))) := by
  simp only [conditionalBranch, stubModel, EvM_bind_eq, EvM.bind, emit, EvM_pure, throwE,
    maskMul, cat1Seq, cat1Cols, cat2Hid, ones2, List.map, List.zipWith, List.replicate,
    List.length, List.headD, if_true, show "a".length = 1 from rfl, Nat.cast_one]
  norm_num

/-- C5 (code bug): line 412 guards the negative text-encoder call with
`torch.set_grad_enabled(self.enable_grad)`, and `enable_grad` is never
assigned on the pipeline nor defined on its base classes, so every guided
call with a negative prompt raises AttributeError right after the negative
prompt is tokenized — the text encoder and the projection model are never
invoked on the negative branch, and the claimed mask handling, zeroing and
temporal concatenation are never executed.  Conjunct one shows the concrete
trace (positive branch fully built, then only the negative tokenization);
conjunct two shows the error for every prompt/negative-prompt pair at the
stub collaborators. -/
theorem c5_negative_prompt_attribute_error :
    encode_prompt_and_seconds stubModel (.str "a") 0 2 1 true (.str "bb") none none none none
      = ([Ev.tok ["a"], Ev.tokLong ["a"], Ev.txtEnc [[1, 1]] [[1, 1]],
          Ev.proj [[[1], [1]]] [[1, 1]] [0] [2], Ev.tok ["bb"]],
         Except.error Err.attributeError)
    ∧ ∀ (p ns : String) (s e : ℚ) (nw : ℕ),
        (encode_prompt_and_seconds stubModel (.str p) s e nw true (.str ns)
            none none none none).2
          = Except.error Err.attributeError := by
  constructor
  · simp only [encode_prompt_and_seconds, conditionalBranch, stubModel, EvM_bind_eq, EvM.bind,
      emit, EvM_pure, throwE, maskMul, cat1Seq, cat1Cols, cat2Hid, cat0, ones2, tileRows,
      zerosLike, torchWhere, List.map, List.zipWith, List.replicate, List.flatten,
      List.append_nil, List.nil_append, List.length, List.chain'_cons, List.chain'_singleton,
      List.cons_append, List.headD, if_true, show "a".length = 1 from rfl,
      show "bb".length = 2 from rfl, Nat.cast_one, Nat.cast_ofNat]
  · intro p ns s e nw
    simp only [encode_prompt_and_seconds, conditionalBranch, stubModel, EvM_bind_eq, EvM.bind,
      emit, EvM_pure, throwE, maskMul, cat1Seq, cat1Cols, cat2Hid, cat0, ones2, tileRows,
      zerosLike, torchWhere, List.map, List.zipWith, List.replicate, List.flatten,
      List.append_nil, List.nil_append, List.length, List.chain'_cons, List.chain'_singleton,
      List.cons_append, List.headD, if_true, eq_self_iff_true, Nat.cast_one]

/-- C4 amended: with a list prompt and a negative-prompt list of mismatched
length under guidance, the call does fail, but only after the conditional
branch was tokenized (the trace begins with the tokenizer invocation on the
prompt); the negative prompt itself is never tokenized before the failure. -/
theorem c4_mismatch_after_encoding (M : Model) (ps ns : List String) (s e : ℚ) (nw : ℕ)
    (onc : Option T3) (oa ona : Option T2)
    (hlen : ps.length ≠ ns.length) :
    ∃ (er : Err) (tr : List Ev),
      encode_prompt_and_seconds M (.list ps) s e nw true (.list ns) none onc oa ona
        = (Ev.tok ps :: tr, Except.error er)
      ∧ Ev.tok ns ∉ (Ev.tok ps :: tr) := by
  obtain ⟨cbt, cbr, hcb⟩ : ∃ t r, conditionalBranch M ps [s] [e] = (t, r) := ⟨_, _, rfl⟩
  have hcbt : cbt =
      [Ev.tok ps, Ev.tokLong ps, Ev.txtEnc (M.tokenize ps).1 (M.tokenize ps).2,
       Ev.proj (M.textEncode (M.tokenize ps).1 (M.tokenize ps).2) (M.tokenize ps).2 [s] [e]] := by
    have h1 := condBranch_trace M ps [s] [e]
    rw [hcb] at h1
    exact h1
  have hne : ns ≠ ps := fun hh => hlen (by rw [hh])
  unfold encode_prompt_and_seconds
  simp only [EvM_bind_eq, EvM.bind, emit, EvM_pure, throwE, if_true, hcb]
  cases cbr with
  | error e0 =>
    subst hcbt
    refine ⟨e0,
      [Ev.tokLong ps, Ev.txtEnc (M.tokenize ps).1 (M.tokenize ps).2,
       Ev.proj (M.textEncode (M.tokenize ps).1 (M.tokenize ps).2) (M.tokenize ps).2 [s] [e]],
      by simp, ?_⟩
    simp [hne]
  | ok q =>
    obtain ⟨cross0, mask2q, ghsq, sshq, sehq⟩ := q
    subst hcbt
    simp only [EvM_bind_eq, EvM.bind, emit, EvM_pure, throwE, if_true, hlen,
      ite_true, ne_eq, not_false_eq_true]
    refine ⟨Err.valueError,
      [Ev.tokLong ps, Ev.txtEnc (M.tokenize ps).1 (M.tokenize ps).2,
       Ev.proj (M.textEncode (M.tokenize ps).1 (M.tokenize ps).2) (M.tokenize ps).2 [s] [e]],
      by simp, ?_⟩
    simp [hne]

/-- Witness for the C4 amended theorem at the claim's concrete input
(prompt list of length 2, negative-prompt list of length 3). -/
theorem c4_mismatch_after_encoding_witness :
    ∃ (er : Err) (tr : List Ev),
      encode_prompt_and_seconds stubModel (.list ["a", "bb"]) 0 2 1 true
          (.list ["x", "y", "z"]) none none none none
        = (Ev.tok ["a", "bb"] :: tr, Except.error er)
      ∧ Ev.tok ["x", "y", "z"] ∉ (Ev.tok ["a", "bb"] :: tr) :=
  c4_mismatch_after_encoding stubModel ["a", "bb"] ["x", "y", "z"] 0 2 1 none none none
    (by decide)

/-- The conditioning builder never invokes the decode collaborator. -/
theorem encode_no_dec (M : Model) (p : PromptArg) (s e : ℚ) (nw : ℕ) (cfg : Bool)
    (neg : PromptArg) (oc onc : Option T3) (oa ona : Option T2) (L : T3) :
    Ev.vaeDec L ∉ (encode_prompt_and_seconds M p s e nw cfg neg oc onc oa ona).1 := by
  cases oc with
  | some c =>
    rw [encode_precomputed_unbound]
    simp
  | none =>
    cases p with
    | null =>
      simp [encode_prompt_and_seconds, EvM_bind_eq, EvM.bind, throwE]
    | str s0 =>
      obtain ⟨cbt, cbr, hcb⟩ : ∃ t r, conditionalBranch M [s0] [s] [e] = (t, r) := ⟨_, _, rfl⟩
      have hcbt : cbt =
          [Ev.tok [s0], Ev.tokLong [s0], Ev.txtEnc (M.tokenize [s0]).1 (M.tokenize [s0]).2,
           Ev.proj (M.textEncode (M.tokenize [s0]).1 (M.tokenize [s0]).2) (M.tokenize [s0]).2
             [s] [e]] := by
        have h1 := condBranch_trace M [s0] [s] [e]
        rw [hcb] at h1
        exact h1
      subst hcbt
      unfold encode_prompt_and_seconds
      simp only [EvM_bind_eq, EvM.bind, emit, EvM_pure, throwE, if_true, hcb]
      cases cbr with
      | error e0 => simp
      | ok q =>
        obtain ⟨cross0, mask2q, ghsq, sshq, sehq⟩ := q
        cases cfg <;> cases neg
        all_goals
          simp only [EvM_bind_eq, EvM.bind, emit, EvM_pure, throwE, if_true]
          repeat' split
          all_goals simp
    | list ls =>
      obtain ⟨cbt, cbr, hcb⟩ : ∃ t r, conditionalBranch M ls [s] [e] = (t, r) := ⟨_, _, rfl⟩
      have hcbt : cbt =
          [Ev.tok ls, Ev.tokLong ls, Ev.txtEnc (M.tokenize ls).1 (M.tokenize ls).2,
           Ev.proj (M.textEncode (M.tokenize ls).1 (M.tokenize ls).2) (M.tokenize ls).2
             [s] [e]] := by
        have h1 := condBranch_trace M ls [s] [e]
        rw [hcb] at h1
        exact h1
      subst hcbt
      unfold encode_prompt_and_seconds
      simp only [EvM_bind_eq, EvM.bind, emit, EvM_pure, throwE, if_true, hcb]
      cases cbr with
      | error e0 => simp
      | ok q =>
        obtain ⟨cross0, mask2q, ghsq, sshq, sehq⟩ := q
        cases cfg <;> cases neg
        all_goals
          simp only [EvM_bind_eq, EvM.bind, emit, EvM_pure, throwE, if_true]
          repeat' split
          all_goals simp

theorem prepare_no_dec (M : Model) (bs ch ss : ℕ) (gen : GenArg) (lat init : Option T3)
    (nw : ℕ) (L : T3) :
    Ev.vaeDec L ∉ (prepare_latents M bs ch ss gen lat init nw).1 := by
  unfold prepare_latents
  cases gen <;> cases init <;> cases lat
  all_goals
    simp only [EvM_bind_eq, EvM.bind, emit, EvM_pure, throwE]
    repeat' split
    all_goals simp

theorem denoiseLoop_no_dec (M : Model) (cfg : Bool) (g : ℚ) (cr gl : T3) (rot : ℕ × ℕ) :
    ∀ (ts : List ℚ) (L0 : T3) (L : T3),
      Ev.vaeDec L ∉ (denoiseLoop M cfg g cr gl rot ts L0).1 := by
  intro ts
  induction ts with
  | nil =>
    intro L0 L
    simp [denoiseLoop, EvM_pure]
  | cons t0 ts ih =>
    intro L0 L
    rw [denoiseLoop]
    simp only [EvM_bind_eq, EvM.bind, emit, List.cons_append, List.nil_append, List.mem_cons]
    intro h
    rcases h with h | h | h
    · exact Ev.noConfusion h
    · exact Ev.noConfusion h
    · exact ih _ L h

/-- With `output_type="latent"` the post-processing stage returns the raw
latent wrapped in an `AudioPipelineOutput`, emitting no event. -/
theorem postProcessing_latent (M : Model) (A : CallArgs) (ws we : ℤ) (lat : T3)
    (hout : A.output_type = "latent") :
    postProcessing M A ws we lat = ([], Except.ok (PipeResult.dict lat)) := by
  unfold postProcessing
  rw [if_neg (fun hne => hne hout)]
  rfl

/-- C8: with `output_type="latent"`, no call ever invokes the decode
collaborator (no decode event is in any trace of the entry point), and the
post-processing stage returns the raw post-loop latent unchanged inside the
structured output. -/
theorem c8_latent_passthrough (M : Model) (A : CallArgs) (hout : A.output_type = "latent") :
    (∀ (tr : List Ev) (r : Except Err PipeResult),
      StableAudioPipeline_call M A = (tr, r) → ∀ L, Ev.vaeDec L ∉ tr)
    ∧ (∀ (ws we : ℤ) (lat : T3),
        postProcessing M A ws we lat = ([], Except.ok (PipeResult.dict lat))) := by
  refine ⟨?_, fun ws we lat => postProcessing_latent M A ws we lat hout⟩
  intro tr r hcall L hmem
  have hmem' : Ev.vaeDec L ∈ (StableAudioPipeline_call M A).1 := by
    rw [hcall]
    exact hmem
  unfold StableAudioPipeline_call pipelineCallWith at hmem'
  rcases EvM_mem_bind hmem' with h1 | ⟨a1, ha1, h1⟩
  · split at h1 <;> simp [throwE, EvM_pure] at h1
  rcases EvM_mem_bind h1 with h2 | ⟨a2, ha2, h2⟩
  · split at h2 <;> simp [throwE, EvM_pure] at h2
  rcases EvM_mem_bind h2 with h3 | ⟨a3, ha3, h3⟩
  · split at h3 <;> simp [throwE, EvM_pure] at h3
  rcases EvM_mem_bind h3 with h4 | ⟨a4, ha4, h4⟩
  · exact absurd h4 (encode_no_dec M A.prompt _ _ _ _ _ _ _ _ _ L)
  obtain ⟨cr, am, gh⟩ := a4
  rcases EvM_mem_bind h4 with h5 | ⟨a5, ha5, h5⟩
  · exact absurd h5 (prepare_no_dec M _ _ _ _ _ _ _ L)
  rcases EvM_mem_bind h5 with h6 | ⟨a6, ha6, h6⟩
  · exact absurd h6 (denoiseLoop_no_dec M _ _ _ _ _ _ _ L)
  rw [postProcessing_latent M A _ _ a6 hout] at h6
  simp at h6

/-- Arguments of the C8 witness: a latent-output call. -/
def c8Args : CallArgs :=
  { prompt := .str "a", audio_length_in_s := some 2, num_inference_steps := 1,
    guidance_scale := 1, output_type := "latent" }

/-- Witness for C8 at the stub collaborators. -/
theorem c8_latent_passthrough_witness :
    (∀ (tr : List Ev) (r : Except Err PipeResult),
      StableAudioPipeline_call stubModel c8Args = (tr, r) → ∀ L, Ev.vaeDec L ∉ tr)
    ∧ (∀ (ws we : ℤ) (lat : T3),
        postProcessing stubModel c8Args ws we lat = ([], Except.ok (PipeResult.dict lat))) :=
  c8_latent_passthrough stubModel c8Args rfl

/-- With a non-latent output type, post-processing decodes the full latent
(one decode event) and only then slices the time axis, returning a dict or a
tuple according to `return_dict`. -/
theorem postProcessing_nonlatent (M : Model) (A : CallArgs) (ws we : ℤ) (lat : T3)
    (h : A.output_type ≠ "latent") :
    postProcessing M A ws we lat
      = ([Ev.vaeDec lat],
         Except.ok
           ((if A.return_dict then PipeResult.dict else PipeResult.tup)
             ((M.vaeDecode lat).map (fun ch => ch.map
               (pySlice (ws * (M.hop_length : ℤ)) (we * (M.hop_length : ℤ))))))) := by
  unfold postProcessing
  rw [if_pos h]
  cases hrd : A.return_dict <;>
    simp [EvM_bind_eq, EvM.bind, emit, EvM_pure, hrd]

/-- C9 amended: for non-latent output types the result container is selected
by `return_dict`; for `output_type="latent"` the structured output is returned
unconditionally, before the `return_dict` branch is reached. -/
theorem c9_return_dict_selection (M : Model) (A : CallArgs) (ws we : ℤ) (lat : T3) :
    (A.output_type ≠ "latent" →
      postProcessing M A ws we lat
        = ([Ev.vaeDec lat],
           Except.ok
             ((if A.return_dict then PipeResult.dict else PipeResult.tup)
               ((M.vaeDecode lat).map (fun ch => ch.map
                 (pySlice (ws * (M.hop_length : ℤ)) (we * (M.hop_length : ℤ))))))))
    ∧ (A.output_type = "latent" →
      postProcessing M A ws we lat = ([], Except.ok (PipeResult.dict lat))) :=
  ⟨fun h => postProcessing_nonlatent M A ws we lat h,
   fun h => postProcessing_latent M A ws we lat h⟩

/-- Arguments of the C9 counterexample: latent output with return_dict=False. -/
def c9Args : CallArgs :=
  { prompt := .str "a", audio_length_in_s := some 2, num_inference_steps := 1,
    guidance_scale := 1, output_type := "latent", return_dict := false }

theorem c9_check :
    check_inputs
      { prompt := .str "a", audio_length_in_s := some 2, num_inference_steps := 1,
        guidance_scale := 1, output_type := "latent", return_dict := false } 2
      = Except.ok () := rfl

/-- C9 counterexample: with `output_type="latent"` and `return_dict=False`,
the call still returns the structured `AudioPipelineOutput` (a dict), never
the plain tuple the claim requires for `return_dict=False`. -/
theorem c9_latent_counterexample :
    (StableAudioPipeline_call stubModel c9Args).2
      = Except.ok (PipeResult.dict [[[0, 0, 0, 0, 0, 0]]])
    ∧ c9Args.return_dict = false
    ∧ ∀ a : T3, PipeResult.dict [[[0, 0, 0, 0, 0, 0]]] ≠ PipeResult.tup a := by
  refine ⟨?_, rfl, fun a h => PipeResult.noConfusion h⟩
  simp only [StableAudioPipeline_call, pipelineCallWith, c9Args, encode_prompt_and_seconds,
    conditionalBranch, prepare_latents, denoiseLoop, postProcessing, stubModel,
    EvM_bind_eq, EvM.bind, emit, EvM_pure, throwE, maskMul, cat1Seq, cat1Cols, cat2Hid, cat0,
    ones2, tileRows, zerosLike, torchWhere, chunk2, pyInt, pySlice, smul3, add3, sub3, seqLen,
    dim2, shape2, shape3, List.map, List.zipWith, List.replicate, List.flatten,
    List.append_nil, List.nil_append, List.length, List.chain'_cons, List.chain'_singleton,
    List.cons_append, List.headD, Option.getD_some, if_true, show "a".length = 1 from rfl,
    Nat.cast_one, show (decide ((1 : ℚ) < 1)) = false from by norm_num]
  rw [c9_check]
  norm_num

/-- Witness for C9 at the stub collaborators: one non-latent call (dict chosen
by return_dict=true) and one latent call. -/
theorem c9_return_dict_selection_witness :
    postProcessing stubModel c2Args 0 5 [[[1]]]
      = ([Ev.vaeDec [[[1]]]],
         Except.ok
           ((if c2Args.return_dict then PipeResult.dict else PipeResult.tup)
             ((stubModel.vaeDecode [[[1]]]).map (fun ch => ch.map
               (pySlice (0 * (stubModel.hop_length : ℤ)) (5 * (stubModel.hop_length : ℤ)))))))
    ∧ postProcessing stubModel c8Args 0 5 [[[1]]] = ([], Except.ok (PipeResult.dict [[[1]]])) :=
  ⟨(c9_return_dict_selection stubModel c2Args 0 5 [[[1]]]).1 (by decide),
   (c9_return_dict_selection stubModel c8Args 0 5 [[[1]]]).2 rfl⟩

/-! ### C3: the windowing of the decoded waveform -/

/-- The frame-index computation as the spec words it: `round(seconds *
sampling_rate / downsample_ratio)`.  To be compared with the source's
`int(...)` truncation (`pyInt`); the two differ on any fractional frame
position, e.g. 23/4. -/
def specRoundFrame (seconds sampling_rate downsample_ratio : ℚ) : ℤ :=
  round (seconds * sampling_rate / downsample_ratio)

/-- C3 amended: for every successful call with a non-latent output type, the
full latent is decoded first (a decode event on the full latent is in the
trace) and the result is that decode sliced on the time axis afterwards — but
the frame indices come from Python `int(...)` truncation toward zero, not from
rounding. -/
theorem c3_window_truncation (M : Model) (A : CallArgs) (tr : List Ev) (r : PipeResult)
    (hout : A.output_type ≠ "latent")
    (h : StableAudioPipeline_call M A = (tr, Except.ok r)) :
    ∃ L : T3, Ev.vaeDec L ∈ tr
      ∧ r = (if A.return_dict then PipeResult.dict else PipeResult.tup)
          ((M.vaeDecode L).map (fun ch => ch.map
            (pySlice
              (pyInt (A.audio_start_in_s * M.sampling_rate / M.hop_length)
                * (M.hop_length : ℤ))
              (pyInt ((A.audio_length_in_s.getD
                    ((M.sample_size : ℚ) * M.hop_length / M.sampling_rate))
                  * M.sampling_rate / M.hop_length)
                * (M.hop_length : ℤ))))) := by
  unfold StableAudioPipeline_call pipelineCallWith at h
  obtain ⟨t1, a1, t2, hx1, h1, htr1⟩ := EvM_bind_eq_ok h
  obtain ⟨t3, a2, t4, hx2, h2, htr2⟩ := EvM_bind_eq_ok h1
  obtain ⟨t5, a3, t6, hx3, h3, htr3⟩ := EvM_bind_eq_ok h2
  obtain ⟨t7, a4, t8, hx4, h4, htr4⟩ := EvM_bind_eq_ok h3
  obtain ⟨cr, am, gh⟩ := a4
  obtain ⟨t9, a5, t10, hx5, h5, htr5⟩ := EvM_bind_eq_ok h4
  obtain ⟨t11, a6, t12, hx6, h6, htr6⟩ := EvM_bind_eq_ok h5
  rw [postProcessing_nonlatent M A _ _ a6 hout] at h6
  rw [Prod.mk.injEq] at h6
  refine ⟨a6, ?_, ?_⟩
  · subst htr1 htr2 htr3 htr4 htr5 htr6
    rw [← h6.1]
    simp
  · exact (Except.ok.inj h6.2).symm

/-- Arguments of the C3 counterexample and witness: a 2.3-second request, at
which truncation and rounding of the frame index disagree. -/
def c3Args : CallArgs :=
  { prompt := .str "a", audio_length_in_s := some (23 / 10), num_inference_steps := 1,
    guidance_scale := 1 }

theorem c3_check :
    check_inputs
      { prompt := .str "a", audio_length_in_s := some (23 / 10), num_inference_steps := 1,
        guidance_scale := 1 } (23 / 10)
      = Except.ok () := by
  have h : ¬ ((23 / 10 : ℚ) < 2) := by norm_num
  unfold check_inputs
  rw [if_neg h]
  rfl

theorem c3_run :
    StableAudioPipeline_call stubModel c3Args
      = ((StableAudioPipeline_call stubModel c3Args).1,
         Except.ok (PipeResult.dict
           [[[0, 1, 2, 3, 4, 5, 6, 7, 8, 9, 10, 11, 12, 13, 14, 15, 16, 17, 18, 19]]])) := by
  have h2 : (StableAudioPipeline_call stubModel c3Args).2
      = Except.ok (PipeResult.dict
          [[[0, 1, 2, 3, 4, 5, 6, 7, 8, 9, 10, 11, 12, 13, 14, 15, 16, 17, 18, 19]]]) := by
    simp only [StableAudioPipeline_call, pipelineCallWith, c3Args, encode_prompt_and_seconds,
      conditionalBranch, prepare_latents, denoiseLoop, postProcessing, stubModel,
      EvM_bind_eq, EvM.bind, emit, EvM_pure, throwE, maskMul, cat1Seq, cat1Cols, cat2Hid, cat0,
      ones2, tileRows, zerosLike, torchWhere, chunk2, pyInt, pySlice, smul3, add3, sub3, seqLen,
      dim2, shape2, shape3, List.map, List.zipWith, List.replicate, List.flatten,
      List.append_nil, List.nil_append, List.length, List.chain'_cons, List.chain'_singleton,
      List.cons_append, List.headD, Option.getD_some, if_true, show "a".length = 1 from rfl,
      Nat.cast_one, show (decide ((1 : ℚ) < 1)) = false from by norm_num]
    rw [c3_check]
    norm_num [Int.toNat_ofNat]
    rw [if_neg (show ¬ ("np" : String) = "latent" from by decide)]
    simp
  conv_lhs => rw [EvM_eta (StableAudioPipeline_call stubModel c3Args)]
  rw [h2]

/-- Witness for C3 at the stub collaborators: for the concrete successful
2.3-second run, a decode event for the final latent is in the trace and the
result is its truncated-index slice. -/
theorem c3_window_truncation_witness :
    ∃ L : T3,
      Ev.vaeDec L ∈ (StableAudioPipeline_call stubModel c3Args).1
      ∧ PipeResult.dict
          [[[0, 1, 2, 3, 4, 5, 6, 7, 8, 9, 10, 11, 12, 13, 14, 15, 16, 17, 18, 19]]]
        = (if c3Args.return_dict then PipeResult.dict else PipeResult.tup)
            ((stubModel.vaeDecode L).map (fun ch => ch.map
              (pySlice
                (pyInt (c3Args.audio_start_in_s * stubModel.sampling_rate / stubModel.hop_length)
                  * (stubModel.hop_length : ℤ))
                (pyInt ((c3Args.audio_length_in_s.getD
                      ((stubModel.sample_size : ℚ) * stubModel.hop_length
                        / stubModel.sampling_rate))
                    * stubModel.sampling_rate / stubModel.hop_length)
                  * (stubModel.hop_length : ℤ))))) :=
  c3_window_truncation stubModel c3Args _ _ (by decide) c3_run

/-- C3 counterexample: at 2.3 seconds with sampling rate 10 and hop length 4
the source's `int()` truncation gives frame 5 while the spec's rounding gives
frame 6; the pipeline returns the 20-sample slice, whereas the spec's rounded
end frame would keep all 24 decoded samples — a different waveform. -/
theorem c3_round_counterexample :
    pyInt ((23 / 10 : ℚ) * stubModel.sampling_rate / stubModel.hop_length) = 5
    ∧ specRoundFrame (23 / 10) stubModel.sampling_rate stubModel.hop_length = 6
    ∧ (StableAudioPipeline_call stubModel c3Args).2
        = Except.ok (PipeResult.dict
            [[[0, 1, 2, 3, 4, 5, 6, 7, 8, 9, 10, 11, 12, 13, 14, 15, 16, 17, 18, 19]]])
    ∧ ((stubModel.vaeDecode [[[0, 0, 0, 0, 0, 0]]]).map (fun ch => ch.map
          (pySlice (0 * (stubModel.hop_length : ℤ)) (6 * (stubModel.hop_length : ℤ)))))
        = [[[0, 1, 2, 3, 4, 5, 6, 7, 8, 9, 10, 11, 12,
             13, 14, 15, 16, 17, 18, 19, 20, 21, 22, 23]]]
    ∧ ([[[0, 1, 2, 3, 4, 5, 6, 7, 8, 9, 10, 11, 12, 13, 14, 15, 16, 17, 18, 19]]] : T3)
        ≠ [[[0, 1, 2, 3, 4, 5, 6, 7, 8, 9, 10, 11, 12,
             13, 14, 15, 16, 17, 18, 19, 20, 21, 22, 23]]] := by
  refine ⟨?_, ?_, ?_, ?_, by simp⟩
  · norm_num [pyInt, stubModel]
  · norm_num [specRoundFrame, stubModel, round_eq]
  · exact (congrArg Prod.snd c3_run).trans rfl
  · norm_num [stubModel, pySlice, Int.toNat_ofNat]
